import Mathlib

/-!
Shallow embedding of the `brdoc` library (src/brdoc/cpf.py, src/brdoc/cnpj.py):
Brazilian CPF and CNPJ document values with cleaning, check-digit validation,
formatting and generation, together with theorems settling the specification
claims about them.

Python strings are modelled as Lean `String`; the random draws consumed by the
generators (`random.randint(0, 9)` outcomes) are passed explicitly as a list.
-/

namespace Brdoc

/-- `_clean`: `re.sub(r"\D", "", s)` — keep exactly the decimal digit
characters `'0'`–`'9'` of the input, in order. -/
def clean (s : String) : String := String.mk (s.data.filter Char.isDigit)

/-- `int(c)` for a single digit character. -/
def digitVal (c : Char) : Nat := c.toNat - 48

/-- `str(n)` for a single digit value `n ≤ 9`. -/
def digitChar (n : Nat) : Char := Char.ofNat (48 + n)

/-- The digit values of a digit string: `int(self._digits[i])` pointwise. -/
def digitsList (s : String) : List Nat := s.data.map digitVal

/-- A CPF document value: the original input and the cleaned digit string
(`self._original`, `self._digits`). -/
structure CPF where
  original : String
  digits : String
  deriving DecidableEq

/-- `CPF.__init__`: store the raw input and its cleaned digits. -/
def CPF.make (s : String) : CPF := ⟨s, clean s⟩

/-- `sum(int(self._digits[i]) * (10 - i) for i in range(9))`. -/
def cpfSumFirst (d : List Nat) : Nat :=
  ((List.range 9).map (fun i => d.getD i 0 * (10 - i))).sum

/-- First CPF check digit: `(sum_first * 10) % 11`, with `10` mapped to `0`. -/
def cpfFirstCheck (d : List Nat) : Nat :=
  let r := (cpfSumFirst d * 10) % 11
  if r = 10 then 0 else r

/-- `sum(int(self._digits[i]) * (11 - i) for i in range(10))`. -/
def cpfSumSecond (d : List Nat) : Nat :=
  ((List.range 10).map (fun i => d.getD i 0 * (11 - i))).sum

/-- Second CPF check digit: `(sum_second * 10) % 11`, with `10` mapped to `0`. -/
def cpfSecondCheck (d : List Nat) : Nat :=
  let r := (cpfSumSecond d * 10) % 11
  if r = 10 then 0 else r

/-- `CPF._validate_check_digits`. -/
def cpfValidateCheckDigits (s : String) : Bool :=
  let d := digitsList s
  if d.getD 9 0 ≠ cpfFirstCheck d then false
  else decide (d.getD 10 0 = cpfSecondCheck d)

/-- `CPF.is_valid`: 11 digits, not all one repeated digit
(`self._digits == self._digits[0] * 11`), and both check digits correct. -/
def CPF.is_valid (c : CPF) : Bool :=
  if c.digits.length ≠ 11 then false
  else if c.digits = String.mk (List.replicate 11 (c.digits.data.headD 'x')) then false
  else cpfValidateCheckDigits c.digits

/-- The CPF format template `XXX.XXX.XXX-XX` applied to a digit string
(`f"{d[:3]}.{d[3:6]}.{d[6:9]}-{d[9:]}"`). -/
def cpfFormatString (s : String) : String :=
  String.mk (s.data.take 3 ++ ['.'] ++ (s.data.drop 3).take 3 ++ ['.']
    ++ (s.data.drop 6).take 3 ++ ['-'] ++ s.data.drop 9)

/-- `CPF.formatted`: raising `InvalidCPFError` is modelled as `Except.error`
carrying the exception message. -/
def CPF.formatted (c : CPF) : Except String String :=
  if c.digits.length ≠ 11 then
    Except.error ("CPF must have 11 digits, got " ++ toString c.digits.length)
  else
    Except.ok (cpfFormatString c.digits)

/-- `CPF.__str__`: the formatted string, falling back to the plain digits when
`formatted` raises. -/
def CPF.str (c : CPF) : String :=
  match c.formatted with
  | Except.ok s => s
  | Except.error _ => c.digits

/-- `CPF.validate` class method. -/
def CPF.validate (s : String) : Bool := (CPF.make s).is_valid

/-- `CPF.generate`: the nine `random.randint(0, 9)` outcomes are passed as
`draws`; the two check digits are appended and a `CPF` is built from the
joined digit string. The `formatted` parameter is accepted as in the source,
whose body never reads it. -/
def CPF.generate (fmtd : Bool) (draws : List Nat) : CPF :=
  let b1 := draws ++ [cpfFirstCheck draws]
  let b2 := b1 ++ [cpfSecondCheck b1]
  CPF.make (String.mk (b2.map digitChar))

/-- `CPF.__eq__`: digit-string comparison. -/
def CPF.beq (a b : CPF) : Bool := a.digits == b.digits

/-- CPython's `hash` on `str` is an unspecified deterministic function of the
character sequence; modelled by a concrete such function. -/
def strHash (s : String) : Nat :=
  s.data.foldl (fun h c => h * 1000003 + c.toNat) 5381

/-- `CPF.__hash__`: `hash(self._digits)`. -/
def CPF.hashv (c : CPF) : Nat := strHash c.digits

/-- A CNPJ document value (`self._original`, `self._digits`). -/
structure CNPJ where
  original : String
  digits : String
  deriving DecidableEq

/-- `CNPJ.__init__`. -/
def CNPJ.make (s : String) : CNPJ := ⟨s, clean s⟩

/-- `weights_first = [5, 4, 3, 2, 9, 8, 7, 6, 5, 4, 3, 2]`. -/
def cnpjWeightsFirst : List Nat := [5, 4, 3, 2, 9, 8, 7, 6, 5, 4, 3, 2]

/-- `weights_second = [6, 5, 4, 3, 2, 9, 8, 7, 6, 5, 4, 3, 2]`. -/
def cnpjWeightsSecond : List Nat := [6, 5, 4, 3, 2, 9, 8, 7, 6, 5, 4, 3, 2]

/-- `sum(int(self._digits[i]) * weights_first[i] for i in range(12))`. -/
def cnpjSumFirst (d : List Nat) : Nat :=
  ((List.range 12).map (fun i => d.getD i 0 * cnpjWeightsFirst.getD i 0)).sum

/-- First CNPJ check digit: `sum % 11`, then `0` if below `2` else `11 - r`. -/
def cnpjFirstCheck (d : List Nat) : Nat :=
  let r := cnpjSumFirst d % 11
  if r < 2 then 0 else 11 - r

/-- `sum(int(self._digits[i]) * weights_second[i] for i in range(13))`. -/
def cnpjSumSecond (d : List Nat) : Nat :=
  ((List.range 13).map (fun i => d.getD i 0 * cnpjWeightsSecond.getD i 0)).sum

/-- Second CNPJ check digit: `sum % 11`, then `0` if below `2` else `11 - r`. -/
def cnpjSecondCheck (d : List Nat) : Nat :=
  let r := cnpjSumSecond d % 11
  if r < 2 then 0 else 11 - r

/-- `CNPJ._validate_check_digits`. -/
def cnpjValidateCheckDigits (s : String) : Bool :=
  let d := digitsList s
  if d.getD 12 0 ≠ cnpjFirstCheck d then false
  else decide (d.getD 13 0 = cnpjSecondCheck d)

/-- `CNPJ.is_valid`: 14 digits, not all one repeated digit, and both check
digits correct. -/
def CNPJ.is_valid (c : CNPJ) : Bool :=
  if c.digits.length ≠ 14 then false
  else if c.digits = String.mk (List.replicate 14 (c.digits.data.headD 'x')) then false
  else cnpjValidateCheckDigits c.digits

/-- The CNPJ format template `XX.XXX.XXX/XXXX-XX`
(`f"{d[:2]}.{d[2:5]}.{d[5:8]}/{d[8:12]}-{d[12:]}"`). -/
def cnpjFormatString (s : String) : String :=
  String.mk (s.data.take 2 ++ ['.'] ++ (s.data.drop 2).take 3 ++ ['.']
    ++ (s.data.drop 5).take 3 ++ ['/'] ++ (s.data.drop 8).take 4 ++ ['-']
    ++ s.data.drop 12)

/-- `CNPJ.formatted`: `InvalidCNPJError` modelled as `Except.error`. -/
def CNPJ.formatted (c : CNPJ) : Except String String :=
  if c.digits.length ≠ 14 then
    Except.error ("CNPJ must have 14 digits, got " ++ toString c.digits.length)
  else
    Except.ok (cnpjFormatString c.digits)

/-- `CNPJ.__str__`. -/
def CNPJ.str (c : CNPJ) : String :=
  match c.formatted with
  | Except.ok s => s
  | Except.error _ => c.digits

/-- `CNPJ.validate` class method. -/
def CNPJ.validate (s : String) : Bool := (CNPJ.make s).is_valid

/-- `CNPJ.generate`: the twelve `random.randint(0, 9)` outcomes are passed as
`draws`; the `formatted` parameter is accepted as in the source, whose body
never reads it. -/
def CNPJ.generate (fmtd : Bool) (draws : List Nat) : CNPJ :=
  let b1 := draws ++ [cnpjFirstCheck draws]
  let b2 := b1 ++ [cnpjSecondCheck b1]
  CNPJ.make (String.mk (b2.map digitChar))

/-- `CNPJ.__eq__`: digit-string comparison. -/
def CNPJ.beq (a b : CNPJ) : Bool := a.digits == b.digits

/-- `CNPJ.__hash__`: `hash(self._digits)`. -/
def CNPJ.hashv (c : CNPJ) : Nat := strHash c.digits

/-! Specification-side definitions, written from the spec's wording, to be
compared with the code-derived definitions above. -/

/-- Spec §4.2, first CPF check digit: weight position `i` by `10 - i` for
`i` in `[0,9)`, sum, take `(sum * 10) mod 11`, map `10` to `0`. -/
def cpfSpecFirstDigit (d : List Nat) : Nat :=
  let r := (((List.range 9).map (fun i => d.getD i 0 * (10 - i))).sum * 10) % 11
  if r = 10 then 0 else r

/-- Spec §4.2, second CPF check digit: weight position `i` by `11 - i` for
`i` in `[0,10)` over the payload extended by the first check digit. -/
def cpfSpecSecondDigit (d : List Nat) : Nat :=
  let r := (((List.range 10).map (fun i => d.getD i 0 * (11 - i))).sum * 10) % 11
  if r = 10 then 0 else r

/-- Spec §4.2: both CPF check digits match the digits at positions 9 and 10. -/
def cpfSpecChecks (d : List Nat) : Prop :=
  d.getD 9 0 = cpfSpecFirstDigit d ∧ d.getD 10 0 = cpfSpecSecondDigit d

/-- Spec §4.2, first CNPJ check digit: weight table `[5,4,3,2,9,8,7,6,5,4,3,2]`
on positions `0..11`, remainder mod 11, `0` when below 2, else `11 - r`. -/
def cnpjSpecFirstDigit (d : List Nat) : Nat :=
  let r := (((List.range 12).map
    (fun i => d.getD i 0 * ([5, 4, 3, 2, 9, 8, 7, 6, 5, 4, 3, 2].getD i 0))).sum) % 11
  if r < 2 then 0 else 11 - r

/-- Spec §4.2, second CNPJ check digit: weight table
`[6,5,4,3,2,9,8,7,6,5,4,3,2]` on positions `0..12`. -/
def cnpjSpecSecondDigit (d : List Nat) : Nat :=
  let r := (((List.range 13).map
    (fun i => d.getD i 0 * ([6, 5, 4, 3, 2, 9, 8, 7, 6, 5, 4, 3, 2].getD i 0))).sum) % 11
  if r < 2 then 0 else 11 - r

/-- Spec §4.2: both CNPJ check digits match the digits at positions 12, 13. -/
def cnpjSpecChecks (d : List Nat) : Prop :=
  d.getD 12 0 = cnpjSpecFirstDigit d ∧ d.getD 13 0 = cnpjSpecSecondDigit d

/-- Spec §4.2 validity predicate for CPF: exact length, not all one repeated
character, both check digits correct. -/
def cpfSpecValid (s : String) : Prop :=
  (clean s).length = 11 ∧
  ¬ (∀ c ∈ (clean s).data, ∀ c2 ∈ (clean s).data, c = c2) ∧
  cpfSpecChecks (digitsList (clean s))

/-- Spec §4.2 validity predicate for CNPJ. -/
def cnpjSpecValid (s : String) : Prop :=
  (clean s).length = 14 ∧
  ¬ (∀ c ∈ (clean s).data, ∀ c2 ∈ (clean s).data, c = c2) ∧
  cnpjSpecChecks (digitsList (clean s))

/-! Basic lemmas about the embedding. -/

/-- `Char.isDigit` means exactly the character range `'0'`–`'9'`. -/
theorem isDigit_eq_decide (c : Char) :
    c.isDigit = decide ('0' ≤ c ∧ c ≤ '9') := by
  have h48 : Char.val '0' = 48 := rfl
  have h57 : Char.val '9' = 57 := rfl
  by_cases h : '0' ≤ c ∧ c ≤ '9'
  · have h1 : 48 ≤ c.val := h48 ▸ Char.le_def.mp h.1
    have h2 : c.val ≤ 57 := h57 ▸ Char.le_def.mp h.2
    have hd : c.isDigit = true := by simp [Char.isDigit, ge_iff_le, h1, h2]
    rw [hd, decide_eq_true h]
  · have hd : c.isDigit = false := by
      rcases not_and_or.mp h with h1 | h1
      · have hn : ¬ (48 ≤ c.val) := fun hc => h1 (Char.le_def.mpr (h48 ▸ hc))
        simp [Char.isDigit, ge_iff_le, hn]
      · have hn : ¬ (c.val ≤ 57) := fun hc => h1 (Char.le_def.mpr (h57 ▸ hc))
        simp [Char.isDigit, ge_iff_le, hn]
    rw [hd, decide_eq_false h]

/-- The code's check-digit verifier agrees with the spec's two-equation
formulation, for CPF. -/
theorem cpfValidate_iff_spec (s : String) :
    cpfValidateCheckDigits s = true ↔ cpfSpecChecks (digitsList s) := by
  unfold cpfValidateCheckDigits cpfSpecChecks
  have e1 : cpfSpecFirstDigit (digitsList s) = cpfFirstCheck (digitsList s) := rfl
  have e2 : cpfSpecSecondDigit (digitsList s) = cpfSecondCheck (digitsList s) := rfl
  rw [e1, e2]
  by_cases h : (digitsList s).getD 9 0 = cpfFirstCheck (digitsList s) <;> simp [h]

/-- The code's check-digit verifier agrees with the spec's two-equation
formulation, for CNPJ. -/
theorem cnpjValidate_iff_spec (s : String) :
    cnpjValidateCheckDigits s = true ↔ cnpjSpecChecks (digitsList s) := by
  unfold cnpjValidateCheckDigits cnpjSpecChecks
  have e1 : cnpjSpecFirstDigit (digitsList s) = cnpjFirstCheck (digitsList s) := rfl
  have e2 : cnpjSpecSecondDigit (digitsList s) = cnpjSecondCheck (digitsList s) := rfl
  rw [e1, e2]
  by_cases h : (digitsList s).getD 12 0 = cnpjFirstCheck (digitsList s) <;> simp [h]

/-- A nonempty list of known length is the replicate of its head exactly when
its elements are pairwise equal. -/
theorem eq_replicate_headD_iff {α : Type} (dflt : α) (l : List α) (n : Nat)
    (hn : n ≠ 0) (hL : l.length = n) :
    l = List.replicate n (l.headD dflt) ↔ (∀ c ∈ l, ∀ c2 ∈ l, c = c2) := by
  have hne : l ≠ [] := by
    intro h
    rw [h] at hL
    exact hn hL.symm
  obtain ⟨a, l', rfl⟩ := List.exists_cons_of_ne_nil hne
  simp only [List.headD_cons]
  constructor
  · intro h c hc c2 hc2
    have h1 := (List.eq_replicate_iff.mp h).2
    rw [h1 c hc, h1 c2 hc2]
  · intro h
    exact List.eq_replicate_iff.mpr
      ⟨hL, fun b hb => h b hb a (List.mem_cons_self a l')⟩

/-- Reassembling the four CPF format slices gives back the original list. -/
theorem cpf_splice (l : List Char) :
    l.take 3 ++ ((l.drop 3).take 3 ++ ((l.drop 6).take 3 ++ l.drop 9)) = l := by
  have h36 : List.drop 3 (List.drop 3 l) = List.drop 6 l := by
    rw [List.drop_drop]
  have h69 : List.drop 3 (List.drop 6 l) = List.drop 9 l := by
    rw [List.drop_drop]
  conv_rhs => rw [← List.take_append_drop 3 l,
    ← List.take_append_drop 3 (List.drop 3 l), h36,
    ← List.take_append_drop 3 (List.drop 6 l), h69]

/-- Reassembling the five CNPJ format slices gives back the original list. -/
theorem cnpj_splice (l : List Char) :
    l.take 2 ++ ((l.drop 2).take 3 ++ ((l.drop 5).take 3
      ++ ((l.drop 8).take 4 ++ l.drop 12))) = l := by
  have h25 : List.drop 3 (List.drop 2 l) = List.drop 5 l := by
    rw [List.drop_drop]
  have h58 : List.drop 3 (List.drop 5 l) = List.drop 8 l := by
    rw [List.drop_drop]
  have h812 : List.drop 4 (List.drop 8 l) = List.drop 12 l := by
    rw [List.drop_drop]
  conv_rhs => rw [← List.take_append_drop 2 l,
    ← List.take_append_drop 3 (List.drop 2 l), h25,
    ← List.take_append_drop 3 (List.drop 5 l), h58,
    ← List.take_append_drop 4 (List.drop 8 l), h812]

/-- Cleaning undoes CPF formatting on an all-digit string. -/
theorem clean_cpfFormat (t : String) (h : ∀ c ∈ t.data, c.isDigit = true) :
    clean (cpfFormatString t) = t := by
  apply String.ext
  show List.filter Char.isDigit (t.data.take 3 ++ ['.'] ++ (t.data.drop 3).take 3
    ++ ['.'] ++ (t.data.drop 6).take 3 ++ ['-'] ++ t.data.drop 9) = t.data
  have hTake : ∀ n m : Nat,
      List.filter Char.isDigit ((t.data.drop m).take n) = (t.data.drop m).take n :=
    fun n m => List.filter_eq_self.mpr
      (fun c hc => h c (List.drop_subset m t.data (List.take_subset n _ hc)))
  have hTake0 : List.filter Char.isDigit (t.data.take 3) = t.data.take 3 :=
    List.filter_eq_self.mpr (fun c hc => h c (List.take_subset 3 t.data hc))
  have hDrop : List.filter Char.isDigit (t.data.drop 9) = t.data.drop 9 :=
    List.filter_eq_self.mpr (fun c hc => h c (List.drop_subset 9 t.data hc))
  have hdot : List.filter Char.isDigit ['.'] = [] := by decide
  have hdash : List.filter Char.isDigit ['-'] = [] := by decide
  simp only [List.filter_append, hTake, hTake0, hDrop, hdot, hdash,
    List.append_nil, List.nil_append, List.append_assoc]
  exact cpf_splice t.data

/-- Cleaning undoes CNPJ formatting on an all-digit string. -/
theorem clean_cnpjFormat (t : String) (h : ∀ c ∈ t.data, c.isDigit = true) :
    clean (cnpjFormatString t) = t := by
  apply String.ext
  show List.filter Char.isDigit (t.data.take 2 ++ ['.'] ++ (t.data.drop 2).take 3
    ++ ['.'] ++ (t.data.drop 5).take 3 ++ ['/'] ++ (t.data.drop 8).take 4
    ++ ['-'] ++ t.data.drop 12) = t.data
  have hTake : ∀ n m : Nat,
      List.filter Char.isDigit ((t.data.drop m).take n) = (t.data.drop m).take n :=
    fun n m => List.filter_eq_self.mpr
      (fun c hc => h c (List.drop_subset m t.data (List.take_subset n _ hc)))
  have hTake0 : List.filter Char.isDigit (t.data.take 2) = t.data.take 2 :=
    List.filter_eq_self.mpr (fun c hc => h c (List.take_subset 2 t.data hc))
  have hDrop : List.filter Char.isDigit (t.data.drop 12) = t.data.drop 12 :=
    List.filter_eq_self.mpr (fun c hc => h c (List.drop_subset 12 t.data hc))
  have hdot : List.filter Char.isDigit ['.'] = [] := by decide
  have hdash : List.filter Char.isDigit ['-'] = [] := by decide
  have hslash : List.filter Char.isDigit ['/'] = [] := by decide
  simp only [List.filter_append, hTake, hTake0, hDrop, hdot, hdash, hslash,
    List.append_nil, List.nil_append, List.append_assoc]
  exact cnpj_splice t.data

/-- `int(str(n)) = n` for digit values. -/
theorem digitVal_digitChar {n : Nat} (h : n ≤ 9) : digitVal (digitChar n) = n := by
  interval_cases n <;> decide

/-- `str(n)` is a digit character for digit values. -/
theorem digitChar_isDigit {n : Nat} (h : n ≤ 9) : (digitChar n).isDigit = true := by
  interval_cases n <;> decide

/-- The first CPF check digit is a single digit. -/
theorem cpfFirstCheck_le (d : List Nat) : cpfFirstCheck d ≤ 9 := by
  simp only [cpfFirstCheck]
  split <;> omega

/-- The second CPF check digit is a single digit. -/
theorem cpfSecondCheck_le (d : List Nat) : cpfSecondCheck d ≤ 9 := by
  simp only [cpfSecondCheck]
  split <;> omega

/-- The first CNPJ check digit is a single digit. -/
theorem cnpjFirstCheck_le (d : List Nat) : cnpjFirstCheck d ≤ 9 := by
  simp only [cnpjFirstCheck]
  split <;> omega

/-- The second CNPJ check digit is a single digit. -/
theorem cnpjSecondCheck_le (d : List Nat) : cnpjSecondCheck d ≤ 9 := by
  simp only [cnpjSecondCheck]
  split <;> omega

/-- Reading back the digit values of a rendered digit list. -/
theorem mapDigit_digitsList (l : List Nat) (h : ∀ x ∈ l, x ≤ 9) :
    digitsList (String.mk (l.map digitChar)) = l := by
  show (l.map digitChar).map digitVal = l
  rw [List.map_map]
  have h2 : ∀ x ∈ l, (digitVal ∘ digitChar) x = id x :=
    fun x hx => digitVal_digitChar (h x hx)
  rw [List.map_congr_left h2, List.map_id]

/-- Cleaning a rendered digit list is the identity. -/
theorem clean_digitString (l : List Nat) (h : ∀ x ∈ l, x ≤ 9) :
    clean (String.mk (l.map digitChar)) = String.mk (l.map digitChar) := by
  apply String.ext
  show (l.map digitChar).filter Char.isDigit = l.map digitChar
  refine List.filter_eq_self.mpr ?_
  intro c hc
  obtain ⟨x, hx, rfl⟩ := List.mem_map.mp hc
  exact digitChar_isDigit (h x hx)

/-- Sums over `range k` agree when the summands agree below `k`. -/
theorem rangeSum_congr (f g : Nat → Nat) (k : Nat) (h : ∀ i < k, f i = g i) :
    ((List.range k).map f).sum = ((List.range k).map g).sum := by
  rw [List.map_congr_left (fun i hi => h i (List.mem_range.mp hi))]

/-- The first CPF check digit depends only on the first weighted sum. -/
theorem cpfFirstCheck_congr {d e : List Nat} (h : cpfSumFirst d = cpfSumFirst e) :
    cpfFirstCheck d = cpfFirstCheck e := by
  unfold cpfFirstCheck
  rw [h]

/-- The second CPF check digit depends only on the second weighted sum. -/
theorem cpfSecondCheck_congr {d e : List Nat} (h : cpfSumSecond d = cpfSumSecond e) :
    cpfSecondCheck d = cpfSecondCheck e := by
  unfold cpfSecondCheck
  rw [h]

/-- The first CNPJ check digit depends only on the first weighted sum. -/
theorem cnpjFirstCheck_congr {d e : List Nat} (h : cnpjSumFirst d = cnpjSumFirst e) :
    cnpjFirstCheck d = cnpjFirstCheck e := by
  unfold cnpjFirstCheck
  rw [h]

/-- The second CNPJ check digit depends only on the second weighted sum. -/
theorem cnpjSecondCheck_congr {d e : List Nat}
    (h : cnpjSumSecond d = cnpjSumSecond e) :
    cnpjSecondCheck d = cnpjSecondCheck e := by
  unfold cnpjSecondCheck
  rw [h]

/-- An 11-digit list that is not a repdigit and carries its own check digits
renders to a string accepted by `CPF.is_valid`. -/
theorem cpf_valid_digit_list (l : List Nat) (hl : l.length = 11)
    (hb : ∀ x ∈ l, x ≤ 9) (hns : ¬ (∀ x ∈ l, ∀ y ∈ l, x = y))
    (hchk : l.getD 9 0 = cpfFirstCheck l ∧ l.getD 10 0 = cpfSecondCheck l) :
    (CPF.make (String.mk (l.map digitChar))).is_valid = true := by
  have hclean : (CPF.make (String.mk (l.map digitChar))).digits
      = String.mk (l.map digitChar) := clean_digitString l hb
  unfold CPF.is_valid
  rw [hclean]
  have hslen : (String.mk (l.map digitChar)).length = 11 := by
    show (l.map digitChar).length = 11
    simp [hl]
  rw [if_neg (by simp [hslen])]
  have hnr : ¬ (String.mk (l.map digitChar)
      = String.mk (List.replicate 11 ((String.mk (l.map digitChar)).data.headD 'x'))) := by
    intro he
    have hdata : l.map digitChar
        = List.replicate 11 ((l.map digitChar).headD 'x') := String.ext_iff.mp he
    have hallc := (eq_replicate_headD_iff 'x' (l.map digitChar) 11 (by decide)
      (by simp [hl])).mp hdata
    apply hns
    intro x hx y hy
    have hxy := hallc (digitChar x) (List.mem_map_of_mem _ hx)
      (digitChar y) (List.mem_map_of_mem _ hy)
    have h3 := congrArg digitVal hxy
    rwa [digitVal_digitChar (hb x hx), digitVal_digitChar (hb y hy)] at h3
  rw [if_neg hnr, cpfValidate_iff_spec, mapDigit_digitsList l hb]
  exact ⟨hchk.1, hchk.2⟩

/-- A 14-digit list that is not a repdigit and carries its own check digits
renders to a string accepted by `CNPJ.is_valid`. -/
theorem cnpj_valid_digit_list (l : List Nat) (hl : l.length = 14)
    (hb : ∀ x ∈ l, x ≤ 9) (hns : ¬ (∀ x ∈ l, ∀ y ∈ l, x = y))
    (hchk : l.getD 12 0 = cnpjFirstCheck l ∧ l.getD 13 0 = cnpjSecondCheck l) :
    (CNPJ.make (String.mk (l.map digitChar))).is_valid = true := by
  have hclean : (CNPJ.make (String.mk (l.map digitChar))).digits
      = String.mk (l.map digitChar) := clean_digitString l hb
  unfold CNPJ.is_valid
  rw [hclean]
  have hslen : (String.mk (l.map digitChar)).length = 14 := by
    show (l.map digitChar).length = 14
    simp [hl]
  rw [if_neg (by simp [hslen])]
  have hnr : ¬ (String.mk (l.map digitChar)
      = String.mk (List.replicate 14 ((String.mk (l.map digitChar)).data.headD 'x'))) := by
    intro he
    have hdata : l.map digitChar
        = List.replicate 14 ((l.map digitChar).headD 'x') := String.ext_iff.mp he
    have hallc := (eq_replicate_headD_iff 'x' (l.map digitChar) 14 (by decide)
      (by simp [hl])).mp hdata
    apply hns
    intro x hx y hy
    have hxy := hallc (digitChar x) (List.mem_map_of_mem _ hx)
      (digitChar y) (List.mem_map_of_mem _ hy)
    have h3 := congrArg digitVal hxy
    rwa [digitVal_digitChar (hb x hx), digitVal_digitChar (hb y hy)] at h3
  rw [if_neg hnr, cnpjValidate_iff_spec, mapDigit_digitsList l hb]
  exact ⟨hchk.1, hchk.2⟩

/-- The list assembled by `CPF.generate` carries its own check digits. -/
theorem cpf_assembled_checks (p : List Nat) (h9 : p.length = 9) :
    ((p ++ [cpfFirstCheck p]) ++ [cpfSecondCheck (p ++ [cpfFirstCheck p])]).getD 9 0
        = cpfFirstCheck
          ((p ++ [cpfFirstCheck p]) ++ [cpfSecondCheck (p ++ [cpfFirstCheck p])]) ∧
    ((p ++ [cpfFirstCheck p]) ++ [cpfSecondCheck (p ++ [cpfFirstCheck p])]).getD 10 0
        = cpfSecondCheck
          ((p ++ [cpfFirstCheck p]) ++ [cpfSecondCheck (p ++ [cpfFirstCheck p])]) := by
  have hlen1 : (p ++ [cpfFirstCheck p]).length = 10 := by simp [h9]
  constructor
  · have hg : ((p ++ [cpfFirstCheck p])
        ++ [cpfSecondCheck (p ++ [cpfFirstCheck p])]).getD 9 0
        = (p ++ [cpfFirstCheck p]).getD 9 0 :=
      List.getD_append _ _ _ _ (by rw [hlen1]; omega)
    have hg2 : (p ++ [cpfFirstCheck p]).getD 9 0 = cpfFirstCheck p := by
      rw [List.getD_append_right _ _ _ _ (by rw [h9]), h9]
      simp
    have hsum : cpfSumFirst ((p ++ [cpfFirstCheck p])
        ++ [cpfSecondCheck (p ++ [cpfFirstCheck p])]) = cpfSumFirst p := by
      unfold cpfSumFirst
      exact rangeSum_congr _ _ 9 (fun i hi => by
        rw [List.getD_append _ _ _ _ (by rw [hlen1]; omega),
          List.getD_append _ _ _ _ (by rw [h9]; omega)])
    rw [hg, hg2, cpfFirstCheck_congr hsum]
  · have hg : ((p ++ [cpfFirstCheck p])
        ++ [cpfSecondCheck (p ++ [cpfFirstCheck p])]).getD 10 0
        = cpfSecondCheck (p ++ [cpfFirstCheck p]) := by
      rw [List.getD_append_right _ _ _ _ (by rw [hlen1]), hlen1]
      simp
    have hsum : cpfSumSecond ((p ++ [cpfFirstCheck p])
        ++ [cpfSecondCheck (p ++ [cpfFirstCheck p])])
        = cpfSumSecond (p ++ [cpfFirstCheck p]) := by
      unfold cpfSumSecond
      exact rangeSum_congr _ _ 10 (fun i hi => by
        rw [List.getD_append _ _ _ _ (by rw [hlen1]; omega)])
    rw [hg, cpfSecondCheck_congr hsum]

/-- The list assembled by `CNPJ.generate` carries its own check digits. -/
theorem cnpj_assembled_checks (p : List Nat) (h12 : p.length = 12) :
    ((p ++ [cnpjFirstCheck p]) ++ [cnpjSecondCheck (p ++ [cnpjFirstCheck p])]).getD 12 0
        = cnpjFirstCheck
          ((p ++ [cnpjFirstCheck p]) ++ [cnpjSecondCheck (p ++ [cnpjFirstCheck p])]) ∧
    ((p ++ [cnpjFirstCheck p]) ++ [cnpjSecondCheck (p ++ [cnpjFirstCheck p])]).getD 13 0
        = cnpjSecondCheck
          ((p ++ [cnpjFirstCheck p]) ++ [cnpjSecondCheck (p ++ [cnpjFirstCheck p])]) := by
  have hlen1 : (p ++ [cnpjFirstCheck p]).length = 13 := by simp [h12]
  constructor
  · have hg : ((p ++ [cnpjFirstCheck p])
        ++ [cnpjSecondCheck (p ++ [cnpjFirstCheck p])]).getD 12 0
        = (p ++ [cnpjFirstCheck p]).getD 12 0 :=
      List.getD_append _ _ _ _ (by rw [hlen1]; omega)
    have hg2 : (p ++ [cnpjFirstCheck p]).getD 12 0 = cnpjFirstCheck p := by
      rw [List.getD_append_right _ _ _ _ (by rw [h12]), h12]
      simp
    have hsum : cnpjSumFirst ((p ++ [cnpjFirstCheck p])
        ++ [cnpjSecondCheck (p ++ [cnpjFirstCheck p])]) = cnpjSumFirst p := by
      unfold cnpjSumFirst
      exact rangeSum_congr _ _ 12 (fun i hi => by
        rw [List.getD_append _ _ _ _ (by rw [hlen1]; omega),
          List.getD_append _ _ _ _ (by rw [h12]; omega)])
    rw [hg, hg2, cnpjFirstCheck_congr hsum]
  · have hg : ((p ++ [cnpjFirstCheck p])
        ++ [cnpjSecondCheck (p ++ [cnpjFirstCheck p])]).getD 13 0
        = cnpjSecondCheck (p ++ [cnpjFirstCheck p]) := by
      rw [List.getD_append_right _ _ _ _ (by rw [hlen1]), hlen1]
      simp
    have hsum : cnpjSumSecond ((p ++ [cnpjFirstCheck p])
        ++ [cnpjSecondCheck (p ++ [cnpjFirstCheck p])])
        = cnpjSumSecond (p ++ [cnpjFirstCheck p]) := by
      unfold cnpjSumSecond
      exact rangeSum_congr _ _ 13 (fun i hi => by
        rw [List.getD_append _ _ _ _ (by rw [hlen1]; omega)])
    rw [hg, cnpjSecondCheck_congr hsum]

/-- A CPF generated from non-repdigit bounded draws is valid. -/
theorem cpf_generate_valid (b : Bool) (p : List Nat) (h9 : p.length = 9)
    (hb : ∀ x ∈ p, x ≤ 9) (hns : ¬ (∀ x ∈ p, ∀ y ∈ p, x = y)) :
    (CPF.generate b p).is_valid = true := by
  have hgen : CPF.generate b p = CPF.make (String.mk
      (((p ++ [cpfFirstCheck p])
        ++ [cpfSecondCheck (p ++ [cpfFirstCheck p])]).map digitChar)) := rfl
  rw [hgen]
  apply cpf_valid_digit_list
  · simp [h9]
  · intro x hx
    rcases List.mem_append.mp hx with hx | hx
    · rcases List.mem_append.mp hx with hx | hx
      · exact hb x hx
      · rw [List.mem_singleton.mp hx]
        exact cpfFirstCheck_le p
    · rw [List.mem_singleton.mp hx]
      exact cpfSecondCheck_le _
  · intro hall
    apply hns
    intro x hx y hy
    exact hall x (List.mem_append_left _ (List.mem_append_left _ hx))
      y (List.mem_append_left _ (List.mem_append_left _ hy))
  · exact cpf_assembled_checks p h9

/-- A CNPJ generated from non-repdigit bounded draws is valid. -/
theorem cnpj_generate_valid (b : Bool) (p : List Nat) (h12 : p.length = 12)
    (hb : ∀ x ∈ p, x ≤ 9) (hns : ¬ (∀ x ∈ p, ∀ y ∈ p, x = y)) :
    (CNPJ.generate b p).is_valid = true := by
  have hgen : CNPJ.generate b p = CNPJ.make (String.mk
      (((p ++ [cnpjFirstCheck p])
        ++ [cnpjSecondCheck (p ++ [cnpjFirstCheck p])]).map digitChar)) := rfl
  rw [hgen]
  apply cnpj_valid_digit_list
  · simp [h12]
  · intro x hx
    rcases List.mem_append.mp hx with hx | hx
    · rcases List.mem_append.mp hx with hx | hx
      · exact hb x hx
      · rw [List.mem_singleton.mp hx]
        exact cnpjFirstCheck_le p
    · rw [List.mem_singleton.mp hx]
      exact cnpjSecondCheck_le _
  · intro hall
    apply hns
    intro x hx y hy
    exact hall x (List.mem_append_left _ (List.mem_append_left _ hx))
      y (List.mem_append_left _ (List.mem_append_left _ hy))
  · exact cnpj_assembled_checks p h12

/-- For every repdigit draw the generated CPF is a repdigit and therefore
invalid: the check digits reproduce the drawn digit. -/
theorem cpf_generate_replicate_invalid (b : Bool) (v : Nat) (hv : v ≤ 9) :
    (CPF.generate b (List.replicate 9 v)).is_valid = false := by
  interval_cases v <;> cases b <;> decide

/-- For a nonzero repdigit draw the generated CNPJ is valid: its first check
digit differs from the drawn digit, so the repdigit rejection does not fire. -/
theorem cnpj_generate_replicate_valid (b : Bool) (v : Nat) (hv : v ≤ 9)
    (hv0 : v ≠ 0) :
    (CNPJ.generate b (List.replicate 12 v)).is_valid = true := by
  interval_cases v
  · exact absurd rfl hv0
  all_goals cases b <;> decide

end Brdoc

namespace Brdoc

/-- C8: when `formatted` succeeds, constructing a new document value from its
result recovers exactly the original digit string: formatting followed by
normalization is the identity on the digits. -/
theorem c8_format_normalize_roundtrip :
    (∀ s f : String, (CPF.make s).formatted = Except.ok f →
      (CPF.make f).digits = (CPF.make s).digits) ∧
    (∀ s f : String, (CNPJ.make s).formatted = Except.ok f →
      (CNPJ.make f).digits = (CNPJ.make s).digits) := by
  constructor
  · intro s f h
    unfold CPF.formatted at h
    by_cases hL : (CPF.make s).digits.length = 11
    · rw [if_neg (by simp [hL])] at h
      cases h
      show clean (cpfFormatString (clean s)) = clean s
      exact clean_cpfFormat (clean s)
        (fun c hc => (List.mem_filter.mp hc).2)
    · rw [if_pos hL] at h
      exact Except.noConfusion h
  · intro s f h
    unfold CNPJ.formatted at h
    by_cases hL : (CNPJ.make s).digits.length = 14
    · rw [if_neg (by simp [hL])] at h
      cases h
      show clean (cnpjFormatString (clean s)) = clean s
      exact clean_cnpjFormat (clean s)
        (fun c hc => (List.mem_filter.mp hc).2)
    · rw [if_pos hL] at h
      exact Except.noConfusion h

/-- Witness for C8 on the standard valid CPF: formatting `11144477735` and
re-cleaning gives back the same digits. -/
theorem c8_format_normalize_roundtrip_witness :
    (CPF.make "11144477735").formatted = Except.ok "111.444.777-35" ∧
    (CPF.make "111.444.777-35").digits = (CPF.make "11144477735").digits :=
  ⟨by rfl, c8_format_normalize_roundtrip.1 "11144477735" "111.444.777-35" (by rfl)⟩

/-- C9: the concrete test vectors of the specification hold: validity of the
known-good CPF and CNPJ, invalidity of their check-digit mutations and of the
empty CPF, and the cleaning of a letter-laced CNPJ string. -/
theorem c9_concrete_vectors :
    (CPF.make "111.444.777-35").is_valid = true ∧
    (CPF.make "111.444.777-36").is_valid = false ∧
    (CNPJ.make "11.222.333/0001-81").is_valid = true ∧
    (CNPJ.make "11.222.333/0001-82").is_valid = false ∧
    (CPF.make "").is_valid = false ∧
    (CNPJ.make "11ABC222DEF333GHI0001IJK81").digits = "11222333000181" := by
  refine ⟨?_, ?_, ?_, ?_, ?_, ?_⟩ <;> decide

/-- C1 counterexample: for the all-zero outcome of the random draws, both
`CPF.generate` and `CNPJ.generate` return documents that `is_valid` rejects
(the check digits of a repdigit payload reproduce the digit, and the all-same
string is then refused), so the generated value is not always valid. -/
theorem c1_generate_counterexample :
    (CPF.generate false (List.replicate 9 0)).is_valid = false ∧
    (CNPJ.generate false (List.replicate 12 0)).is_valid = false :=
  ⟨by decide, by decide⟩

/-- C1 (amended): for draws of single digits, `CPF.generate` is valid exactly
when the nine drawn digits are not all identical, and `CNPJ.generate` is valid
exactly when the twelve drawn digits are not all zero. -/
theorem c1_generate_validity_characterized :
    (∀ (b : Bool) (draws : List Nat), draws.length = 9 → (∀ x ∈ draws, x ≤ 9) →
      ((CPF.generate b draws).is_valid = true ↔
        ¬ (∀ x ∈ draws, ∀ y ∈ draws, x = y))) ∧
    (∀ (b : Bool) (draws : List Nat), draws.length = 12 → (∀ x ∈ draws, x ≤ 9) →
      ((CNPJ.generate b draws).is_valid = true ↔
        draws ≠ List.replicate 12 0)) := by
  constructor
  · intro b draws h9 hb
    constructor
    · intro hvalid hall
      have hrep : draws = List.replicate 9 (draws.headD 0) :=
        (eq_replicate_headD_iff 0 draws 9 (by decide) h9).mpr hall
      have hne : draws ≠ [] := by
        intro h
        rw [h] at h9
        simp at h9
      obtain ⟨a, l, rfl⟩ := List.exists_cons_of_ne_nil hne
      have hvle : (a :: l).headD 0 ≤ 9 := by
        simp only [List.headD_cons]
        exact hb a (List.mem_cons_self a l)
      rw [hrep] at hvalid
      rw [cpf_generate_replicate_invalid b _ hvle] at hvalid
      exact Bool.noConfusion hvalid
    · exact cpf_generate_valid b draws h9 hb
  · intro b draws h12 hb
    constructor
    · intro hvalid heq
      subst heq
      have hf : (CNPJ.generate b (List.replicate 12 0)).is_valid = false :=
        (by decide : (CNPJ.generate false (List.replicate 12 0)).is_valid = false)
      rw [hf] at hvalid
      exact Bool.noConfusion hvalid
    · intro hne
      by_cases hall : ∀ x ∈ draws, ∀ y ∈ draws, x = y
      · have hrep : draws = List.replicate 12 (draws.headD 0) :=
          (eq_replicate_headD_iff 0 draws 12 (by decide) h12).mpr hall
        have hne2 : draws ≠ [] := by
          intro h
          rw [h] at h12
          simp at h12
        obtain ⟨a, l, rfl⟩ := List.exists_cons_of_ne_nil hne2
        have hvle : (a :: l).headD 0 ≤ 9 := by
          simp only [List.headD_cons]
          exact hb a (List.mem_cons_self a l)
        have hv0 : (a :: l).headD 0 ≠ 0 := by
          intro h0
          rw [h0] at hrep
          exact hne hrep
        rw [hrep]
        exact cnpj_generate_replicate_valid b _ hvle hv0
      · exact cnpj_generate_valid b draws h12 hb hall

/-- Witness for the amended C1 at concrete non-repdigit draws. -/
theorem c1_generate_validity_characterized_witness :
    (CPF.generate false [1, 2, 3, 4, 5, 6, 7, 8, 9]).is_valid = true ∧
    (CNPJ.generate false [1, 2, 3, 4, 5, 6, 7, 8, 9, 0, 1, 2]).is_valid = true :=
  ⟨(c1_generate_validity_characterized.1 false _ (by decide) (by decide)).mpr
      (by decide),
    (c1_generate_validity_characterized.2 false _ (by decide) (by decide)).mpr
      (by decide)⟩

/-- C2: `is_valid` holds exactly when the cleaned digits have the kind's total
length, are not all one identical character, and both check digits match the
checksum algorithm; in particular every string of 11 (respectively 14) copies
of one digit is invalid. -/
theorem c2_validity_predicate :
    (∀ s : String, (CPF.make s).is_valid = true ↔ cpfSpecValid s) ∧
    (∀ s : String, (CNPJ.make s).is_valid = true ↔ cnpjSpecValid s) ∧
    (∀ d : Fin 10,
      (CPF.make (String.mk (List.replicate 11 (digitChar d.val)))).is_valid = false ∧
      (CNPJ.make (String.mk (List.replicate 14 (digitChar d.val)))).is_valid = false) := by
  refine ⟨?_, ?_, by decide⟩
  · intro s
    have hd : (CPF.make s).digits = clean s := rfl
    unfold CPF.is_valid cpfSpecValid
    rw [hd]
    by_cases hL : (clean s).length = 11
    · have h11 : (clean s).data.length = 11 := hL
      rw [if_neg (by simp [hL])]
      by_cases hR : clean s = String.mk (List.replicate 11 ((clean s).data.headD 'x'))
      · rw [if_pos hR]
        have hall : ∀ c ∈ (clean s).data, ∀ c2 ∈ (clean s).data, c = c2 :=
          (eq_replicate_headD_iff 'x' (clean s).data 11 (by decide) h11).mp
            (String.ext_iff.mp hR)
        simp only [Bool.false_eq_true, false_iff]
        rintro ⟨-, hn, -⟩
        exact hn hall
      · rw [if_neg hR, cpfValidate_iff_spec]
        have hns : ¬ (∀ c ∈ (clean s).data, ∀ c2 ∈ (clean s).data, c = c2) := by
          intro hall
          exact hR (String.ext
            ((eq_replicate_headD_iff 'x' (clean s).data 11 (by decide) h11).mpr hall))
        simp [hL, hns]
    · rw [if_pos (by simp [hL])]
      simp only [Bool.false_eq_true, false_iff]
      rintro ⟨h, -, -⟩
      exact hL h
  · intro s
    have hd : (CNPJ.make s).digits = clean s := rfl
    unfold CNPJ.is_valid cnpjSpecValid
    rw [hd]
    by_cases hL : (clean s).length = 14
    · have h14 : (clean s).data.length = 14 := hL
      rw [if_neg (by simp [hL])]
      by_cases hR : clean s = String.mk (List.replicate 14 ((clean s).data.headD 'x'))
      · rw [if_pos hR]
        have hall : ∀ c ∈ (clean s).data, ∀ c2 ∈ (clean s).data, c = c2 :=
          (eq_replicate_headD_iff 'x' (clean s).data 14 (by decide) h14).mp
            (String.ext_iff.mp hR)
        simp only [Bool.false_eq_true, false_iff]
        rintro ⟨-, hn, -⟩
        exact hn hall
      · rw [if_neg hR, cnpjValidate_iff_spec]
        have hns : ¬ (∀ c ∈ (clean s).data, ∀ c2 ∈ (clean s).data, c = c2) := by
          intro hall
          exact hR (String.ext
            ((eq_replicate_headD_iff 'x' (clean s).data 14 (by decide) h14).mpr hall))
        simp [hL, hns]
    · rw [if_pos (by simp [hL])]
      simp only [Bool.false_eq_true, false_iff]
      rintro ⟨h, -, -⟩
      exact hL h

/-- C3: for an 11-digit CPF string, the code's check-digit verification
succeeds iff the digit at position 9 equals `((Σ d[i]*(10-i), i<9) * 10) % 11`
with `10 ↦ 0`, and the digit at position 10 equals the analogous sum over the
first ten digits with weights `11 - i`. -/
theorem c3_cpf_check_digit_algorithm :
    ∀ s : String, s.length = 11 → (∀ c ∈ s.data, c.isDigit = true) →
      (cpfValidateCheckDigits s = true ↔ cpfSpecChecks (digitsList s)) :=
  fun s _ _ => cpfValidate_iff_spec s

/-- Witness for C3 at the concrete valid CPF digit string `11144477735`. -/
theorem c3_cpf_check_digit_algorithm_witness :
    ("11144477735" : String).length = 11 ∧ cpfSpecChecks (digitsList "11144477735") :=
  ⟨by decide,
    (c3_cpf_check_digit_algorithm "11144477735" (by decide) (by decide)).mp (by decide)⟩

/-- C4: for a 14-digit CNPJ string, the code's check-digit verification
succeeds iff the digit at position 12 equals the weighted sum with table
`[5,4,3,2,9,8,7,6,5,4,3,2]` reduced mod 11 (`0` below 2, else `11 - r`), and
the digit at position 13 equals the analogue with `[6,5,4,3,2,9,8,7,6,5,4,3,2]`
over the first thirteen digits. -/
theorem c4_cnpj_check_digit_algorithm :
    ∀ s : String, s.length = 14 → (∀ c ∈ s.data, c.isDigit = true) →
      (cnpjValidateCheckDigits s = true ↔ cnpjSpecChecks (digitsList s)) :=
  fun s _ _ => cnpjValidate_iff_spec s

/-- Witness for C4 at the concrete valid CNPJ digit string `11222333000181`. -/
theorem c4_cnpj_check_digit_algorithm_witness :
    ("11222333000181" : String).length = 14 ∧ cnpjSpecChecks (digitsList "11222333000181") :=
  ⟨by decide,
    (c4_cnpj_check_digit_algorithm "11222333000181" (by decide) (by decide)).mp (by decide)⟩

/-- C6: construction always succeeds and the stored digits are exactly the
characters `'0'`–`'9'` of the input, in their original relative order (a
sublist of the input), other characters removed; CPF and CNPJ clean alike. -/
theorem c6_clean_keeps_exactly_digits :
    ∀ s : String,
      (CPF.make s).digits.data = s.data.filter (fun c => decide ('0' ≤ c ∧ c ≤ '9')) ∧
      List.Sublist (CPF.make s).digits.data s.data ∧
      (CNPJ.make s).digits = (CPF.make s).digits := by
  intro s
  refine ⟨?_, List.filter_sublist s.data, rfl⟩
  show s.data.filter Char.isDigit = _
  have h : (fun c => decide ('0' ≤ c ∧ c ≤ '9')) = Char.isDigit :=
    funext fun c => (isDigit_eq_decide c).symm
  rw [h]

/-- C7: document values of the same kind are equal exactly when their digit
strings are equal — independent of the raw inputs — and the hash is computed
from the digits alone, so equal values hash identically. -/
theorem c7_equality_and_hash :
    (∀ a b : CPF, (CPF.beq a b = true ↔ a.digits = b.digits) ∧
      (CPF.beq a b = true → CPF.hashv a = CPF.hashv b)) ∧
    (∀ s t : String, CPF.beq (CPF.make s) (CPF.make t) = true ↔ clean s = clean t) ∧
    (∀ a b : CNPJ, (CNPJ.beq a b = true ↔ a.digits = b.digits) ∧
      (CNPJ.beq a b = true → CNPJ.hashv a = CNPJ.hashv b)) ∧
    (∀ s t : String, CNPJ.beq (CNPJ.make s) (CNPJ.make t) = true ↔ clean s = clean t) := by
  refine ⟨fun a b => ⟨?_, ?_⟩, fun s t => ?_, fun a b => ⟨?_, ?_⟩, fun s t => ?_⟩
  · exact beq_iff_eq
  · intro h
    unfold CPF.hashv
    rw [beq_iff_eq.mp h]
  · exact beq_iff_eq
  · exact beq_iff_eq
  · intro h
    unfold CNPJ.hashv
    rw [beq_iff_eq.mp h]
  · exact beq_iff_eq

/-- Witness for C7: the formatted and unformatted spellings of the same CPF
compare equal and hash identically. -/
theorem c7_equality_and_hash_witness :
    CPF.beq (CPF.make "111.444.777-35") (CPF.make "11144477735") = true ∧
    CPF.hashv (CPF.make "111.444.777-35") = CPF.hashv (CPF.make "11144477735") := by
  have h : CPF.beq (CPF.make "111.444.777-35") (CPF.make "11144477735") = true :=
    (c7_equality_and_hash.2.1 "111.444.777-35" "11144477735").mpr (by decide)
  exact ⟨h, (c7_equality_and_hash.1 _ _).2 h⟩

/-- C5: only `formatted` can fail, exactly when the cleaned digit count is not
the kind's total length, with a message giving expected and actual lengths;
string conversion never fails, returning the formatted string on correct
length and the plain digits otherwise; `validate` is construction plus
`is_valid` and construction itself is a total function. -/
theorem c5_only_formatted_raises :
    ∀ s : String,
      ((CPF.make s).formatted = if (clean s).length = 11
        then Except.ok (cpfFormatString (clean s))
        else Except.error ("CPF must have 11 digits, got " ++ toString (clean s).length)) ∧
      ((CPF.make s).str = if (clean s).length = 11
        then cpfFormatString (clean s) else clean s) ∧
      CPF.validate s = (CPF.make s).is_valid ∧
      ((CNPJ.make s).formatted = if (clean s).length = 14
        then Except.ok (cnpjFormatString (clean s))
        else Except.error ("CNPJ must have 14 digits, got " ++ toString (clean s).length)) ∧
      ((CNPJ.make s).str = if (clean s).length = 14
        then cnpjFormatString (clean s) else clean s) ∧
      CNPJ.validate s = (CNPJ.make s).is_valid := by
  intro s
  have hd : (CPF.make s).digits = clean s := rfl
  have hd2 : (CNPJ.make s).digits = clean s := rfl
  have hf : (CPF.make s).formatted = if (clean s).length = 11
      then Except.ok (cpfFormatString (clean s))
      else Except.error ("CPF must have 11 digits, got " ++ toString (clean s).length) := by
    unfold CPF.formatted
    rw [hd]
    by_cases h : (clean s).length = 11 <;> simp [h]
  have hf2 : (CNPJ.make s).formatted = if (clean s).length = 14
      then Except.ok (cnpjFormatString (clean s))
      else Except.error ("CNPJ must have 14 digits, got " ++ toString (clean s).length) := by
    unfold CNPJ.formatted
    rw [hd2]
    by_cases h : (clean s).length = 14 <;> simp [h]
  refine ⟨hf, ?_, rfl, hf2, ?_, rfl⟩
  · unfold CPF.str
    rw [hf, hd]
    by_cases h : (clean s).length = 11 <;> simp [h]
  · unfold CNPJ.str
    rw [hf2, hd2]
    by_cases h : (clean s).length = 14 <;> simp [h]

/-- C10: the `formatted` parameter of `generate` is never read, so for the
same random draws the result is the same document value whatever it is. -/
theorem c10_generate_ignores_formatted_flag :
    ∀ (b1 b2 : Bool) (draws : List Nat),
      CPF.generate b1 draws = CPF.generate b2 draws ∧
      CNPJ.generate b1 draws = CNPJ.generate b2 draws :=
  fun _ _ _ => ⟨rfl, rfl⟩

end Brdoc
